import Mathlib

/-!
Shallow embedding of the cca realtime course-selection engine
(git.sr.ht/~runxiyu/cca): the coalescing signal `usemT`, the message
splitter `splitMsg`, the global mode controller `setState`, the
WebSocket accept path `handleWs`, and the `Y`/`N` message handlers
`messageChooseCourse` / `messageUnchooseCourse`.

Go machine integers are modelled as `Nat` with explicit reduction
modulo `2^32` where overflow matters; fallible operations return
`Option`; panics are modelled as `none`.  Database and transport
outcomes that the Go code observes through errors are supplied by
explicit oracle values, so every branch of the handlers is reachable
in the model.
-/

namespace Cca

/-- Value 2^32, the modulus of Go `uint32` arithmetic. -/
def uint32Lim : Nat := 4294967296

/-- Go addition `x + d` on `uint32` (wraps modulo 2^32), as in `atomic.AddUint32`. -/
def addUint32 (x d : Nat) : Nat := (x + d) % uint32Lim

/-- Sentinel error string for `errNoSuchCourse`. -/
def errNoSuchCourse : String := "no such course"

/-- Sentinel error string for `errBadNumberOfArguments`. -/
def errBadNumberOfArguments : String := "bad number of arguments"

/-- Sentinel error string for `errUnexpectedDBError`. -/
def errUnexpectedDBError : String := "unexpected DB error"

/-- Sentinel error string for `errContextCanceled`. -/
def errContextCanceled : String := "context canceled"

/-- Sentinel error string for `errInvalidState`. -/
def errInvalidState : String := "invalid state"

/-! ## usemT: the coalescing signal (src/unnamed/part_001)

```go
type usemT struct { _ch (chan struct{}) }
func (s *usemT) init() { s._ch = make(chan struct{}, 1) }
func (s *usemT) set() { select { case s._ch <- struct{}{}: default: } }
```

The buffered channel of capacity 1 is modelled by its queue of pending
values, a `List Unit` of length at most 1.  `set` models the
`select`/`default` non-blocking send: it is a total function (it never
waits); the send succeeds exactly when the buffer has room. -/

structure usemT where
  _ch : List Unit
deriving Repr, DecidableEq

/-- Go `(s *usemT) init()`: fresh channel with buffer capacity 1, empty. -/
def usemInit : usemT := ⟨[]⟩

/-- Go `(s *usemT) set()`: non-blocking send; enqueue iff the 1-slot
buffer is not full, otherwise drop (the `default` arm). -/
def usemT.set (s : usemT) : usemT :=
  if s._ch.length < 1 then ⟨s._ch ++ [()]⟩ else s

/-- Receiving from `s.ch()`: returns the dequeued state, or `none`
when the receive would block (empty buffer). -/
def usemT.wait (s : usemT) : Option usemT :=
  match s._ch with
  | [] => none
  | _ :: t => some ⟨t⟩

/-- Iterated signal: `n` consecutive `set()` calls with no intervening receive. -/
def usemT.setN : Nat → usemT → usemT
  | 0, s => s
  | n + 1, s => usemT.setN n s.set

/-! ## splitMsg (src/unnamed/part_002)

```go
func splitMsg(b *[]byte) []string {
	mar := make([]string, 0, 4)
	elem := make([]byte, 0, 5)
	for i, c := range *b {
		switch c {
		case ' ':
			if (*b)[i+1] == ':' {
				mar = append(mar, string(elem))
				mar = append(mar, string((*b)[i+2:]))
				goto endl
			}
			mar = append(mar, string(elem))
			elem = make([]byte, 0, 5)
		default:
			elem = append(elem, c)
		}
	}
	mar = append(mar, string(elem))
endl:
	return mar
}
```

The index expression `(*b)[i+1]` is evaluated whenever byte `i` is a
space; when `i` is the last index this is out of range and the Go
program panics, modelled here by `none`. -/

def splitMsgAux : List Char → List String → List Char → Option (List String)
  | [], mar, elem => some (mar ++ [elem.asString])
  | c :: rest, mar, elem =>
    if c = ' ' then
      match rest with
      | [] => none
      | c2 :: rest2 =>
        if c2 = ':' then
          some (mar ++ [elem.asString, rest2.asString])
        else
          splitMsgAux (c2 :: rest2) (mar ++ [elem.asString]) []
    else
      splitMsgAux rest mar (elem ++ [c])

def splitMsg (b : List Char) : Option (List String) :=
  splitMsgAux b [] []

/-! ## Global mode controller (src/state.go)

The session registry `cancelPool` is a `sync.Map` from user id to a
cancellation handle.  It is modelled as an association list of
`(userID, cancelled flag)`; invoking a cancel handle sets the flag.
`sync.Map.Range` applies the callback to each entry in turn and stops
the iteration as soon as the callback returns `false`. -/

/-- Generic `sync.Map.Range` over a list of entries: the callback
returns the updated entry and whether iteration continues. -/
def mapRange {α : Type} (f : α → α × Bool) : List α → List α
  | [] => []
  | x :: rest =>
    let fx := f x
    if fx.2 then fx.1 :: mapRange f rest else fx.1 :: rest

/-- Events emitted by `setState`: cancellation of a session registry
entry, a broadcast via `propagate`, and the `saveStateValue` write of
the new mode to the `misc` table. -/
inductive stateEvT where
  | cancelEv (userID : String)
  | propagateEv (msg : String)
  | saveEv (value : Nat)
deriving Repr, DecidableEq

/-- Result of `setState`: the session registry after the call, the
process-wide atomic `state` cell, the emitted events in order, and the
returned error (if any). -/
structure setStateResT where
  pool : List (String × Bool)
  stateCell : Nat
  events : List stateEvT
  err : Option String
deriving Repr, DecidableEq

/-- The callback passed to `cancelPool.Range` in `setState` case 0: it
invokes the cancel handle of the entry and then returns `false`
(which stops `sync.Map.Range` after the first entry). -/
def cancelPoolCallback (e : String × Bool) : (String × Bool) × Bool :=
  ((e.1, true), false)

/-- Go `setState(ctx, newState)` from src/state.go, together with the
`saveStateValue` persistence step whose success is the oracle
`saveOk`.  `propagate` (broadcast to every live session) is not under
src/ and appears only as an emitted event.

```go
func setState(ctx context.Context, newState uint32) error {
	switch newState {
	case 0:
		cancelPool.Range(func(_, value interface{}) bool {
			... (*cancel)()
			return false
		})
	case 1:
		propagate("STOP")
	case 2:
		propagate("START")
	default:
		return errInvalidState
	}
	err := saveStateValue(ctx, newState)
	if err != nil { return err }
	atomic.StoreUint32(&state, newState)
	return nil
}
``` -/
def setState (pool : List (String × Bool)) (cell : Nat) (newState : Nat)
    (saveOk : Bool) : setStateResT :=
  if newState = 0 then
    let pool' := mapRange cancelPoolCallback pool
    let evs := (pool.take 1).map (fun e => stateEvT.cancelEv e.1) ++ [.saveEv 0]
    if saveOk then ⟨pool', newState, evs, none⟩
    else ⟨pool', cell, evs, some errUnexpectedDBError⟩
  else if newState = 1 then
    if saveOk then ⟨pool, newState, [.propagateEv "STOP", .saveEv 1], none⟩
    else ⟨pool, cell, [.propagateEv "STOP", .saveEv 1], some errUnexpectedDBError⟩
  else if newState = 2 then
    if saveOk then ⟨pool, newState, [.propagateEv "START", .saveEv 2], none⟩
    else ⟨pool, cell, [.propagateEv "START", .saveEv 2], some errUnexpectedDBError⟩
  else
    ⟨pool, cell, [], some errInvalidState⟩

/-! ## handleWs (src/unnamed/part_002)

Models the accept path after the WebSocket upgrade succeeded: fetch
the `session` cookie, look it up in the `sessions` table, and decide
whether `handleConn` is entered.  The cookie fetch and the database
lookup outcome are oracle inputs. -/

/-- Outcome of `req.Cookie("session")`. -/
inductive cookieResT where
  | ok (value : String)
  | noCookie
  | otherErr
deriving Repr, DecidableEq

/-- Outcome of the `SELECT userid, expr FROM sessions WHERE cookie = $1`
row scan. -/
inductive sessionQueryT where
  | found (userid : String) (expr : Int)
  | noRows
  | dbErr
deriving Repr, DecidableEq

/-- Result of `handleWs`: the text frames written, whether
`handleConn` was entered, and with which userid. -/
structure handleWsResT where
  sent : List String
  enteredHandleConn : Bool
  connUserid : String
deriving Repr, DecidableEq

/-- Go `handleWs` (src/unnamed/part_002 lines 73-150), after a
successful `websocket.Accept`.  Note that in the source the
`pgx.ErrNoRows` branch writes `U` and the generic-error branch writes
`E :Database error`, but neither branch returns: control falls
through to `handleConn` with the zero-valued `userid`. -/
def handleWs (cookie : cookieResT) (query : sessionQueryT) : handleWsResT :=
  match cookie with
  | .noCookie => ⟨["U"], false, ""⟩
  | .otherErr => ⟨["E :Error fetching cookie"], false, ""⟩
  | .ok _ =>
    match query with
    | .noRows => ⟨["U"], true, ""⟩
    | .dbErr => ⟨["E :Database error"], true, ""⟩
    | .found userid _ => ⟨[], true, userid⟩

/-! ## Catalogue and per-session bookkeeping -/

/-- Go `courseT` (catalogue entry): id, the mutable `Selected` seat
counter and the capacity `Max` (both `uint32` in Go, here `Nat`
values below `uint32Lim`), the exclusivity `Group` key and the `Type`
tag. -/
structure courseT where
  courseID : Int
  selected : Nat
  max : Nat
  group : String
  ctype : String
deriving Repr, DecidableEq

/-- Go `courses.Load(courseID)` on the `sync.Map` catalogue, modelled
as first match in an association list. -/
def coursesLoad (cs : List courseT) (i : Int) : Option courseT :=
  cs.find? (fun c => c.courseID == i)

/-- In-place mutation of the course with the given id (the Go code
mutates through the `*courseT` pointer obtained from `Load`). -/
def coursesStore (cs : List courseT) (c : courseT) : List courseT :=
  cs.map (fun c0 => if c0.courseID == c.courseID then c else c0)

/-- Membership test on `userCourseGroups` (a Go `map[courseGroupT]struct\x7b\x7d`). -/
def groupsHas (g : List String) (k : String) : Bool := g.contains k

/-- Go map insert on `userCourseGroups` (set semantics). -/
def groupsInsert (g : List String) (k : String) : List String :=
  if g.contains k then g else g ++ [k]

/-- Go `delete(*userCourseGroups, k)`. -/
def groupsErase (g : List String) (k : String) : List String :=
  g.filter (fun x => x ≠ k)

/-- Go `(*userCourseTypes)[k]++` on a count map with default 0. -/
def typesInc (t : List (String × Nat)) (k : String) : List (String × Nat) :=
  if (t.find? (fun p => p.1 == k)).isSome then
    t.map (fun p => if p.1 == k then (p.1, p.2 + 1) else p)
  else
    t ++ [(k, 1)]

/-! ## strconv.ParseInt(s, 10, 64) -/

/-- ASCII decimal digit test. -/
def isDigit10 (c : Char) : Bool := '0' ≤ c && c ≤ '9'

/-- Accumulate base-10 digits; `none` on any non-digit. -/
def parseDigitsAux : List Char → Nat → Option Nat
  | [], acc => some acc
  | c :: rest, acc =>
    if isDigit10 c then parseDigitsAux rest (acc * 10 + (c.toNat - Char.toNat '0'))
    else none

/-- Nonempty base-10 digit string to `Nat`. -/
def parseNat10 (l : List Char) : Option Nat :=
  if l.isEmpty then none else parseDigitsAux l 0

/-- Go `strconv.ParseInt(s, 10, 64)`: optional sign, base-10 digits,
64-bit range check (`[-2^63, 2^63 - 1]`); `none` models a returned
error. -/
def parseInt64 (s : String) : Option Int :=
  match s.toList with
  | '+' :: rest =>
    (parseNat10 rest).bind (fun n => if n ≤ 2 ^ 63 - 1 then some (n : Int) else none)
  | '-' :: rest =>
    (parseNat10 rest).bind (fun n => if n ≤ 2 ^ 63 then some (-(n : Int)) else none)
  | l =>
    (parseNat10 l).bind (fun n => if n ≤ 2 ^ 63 - 1 then some (n : Int) else none)

/-! ## Message handlers (src/unnamed/part_000 and src/wsm.go) -/

/-- Database calls issued by a handler, in order. -/
inductive dbEvT where
  | beginTx
  | insertChoice
  | commitTx
  | rollbackTx
  | deleteChoice
deriving Repr, DecidableEq

/-- Outcome of the `INSERT INTO choices` statement. -/
inductive insertResT where
  | insOk
  | uniqueViolation
  | otherErr
deriving Repr, DecidableEq

/-- Oracle for the database outcomes observed by `messageChooseCourse`:
context cancellation, `db.Begin`, the insert, `tx.Commit`, the
explicit `tx.Rollback` of the declined branch, and the deferred
`tx.Rollback`. -/
structure chooseOracleT where
  ctxDone : Bool
  beginOk : Bool
  insertRes : insertResT
  commitOk : Bool
  rollbackOk : Bool
  deferRollbackOk : Bool
deriving Repr, DecidableEq

/-- Result of a `Y` handler run: catalogue, the two per-session maps,
frames written to the client, database calls, course ids whose
subscribers were signalled (`propagateSelectedUpdate` /
compensation), and the handler return value. -/
structure chooseResT where
  courses : List courseT
  groups : List String
  types : List (String × Nat)
  sent : List String
  db : List dbEvT
  propagate : List Int
  err : Option String
deriving Repr, DecidableEq

/-- Modelled from the spec: `sendSelectedUpdate` is not under src/;
per section 4.5 step 4 it writes `M <courseid> <selected>` reading
`selected` atomically. -/
def selectedUpdateFrame (courseID : Int) (selected : Nat) : String :=
  "M " ++ toString courseID ++ " " ++ toString selected

/-- Modelled from the spec: `decrementSelectedAndPropagate` is not
under src/; per section 4.4 it atomically decrements
`course.selected` (clamped at zero) and then enqueues a notifier
signal for the course. -/
def decrementSelectedAndPropagate (cs : List courseT) (course : courseT) :
    List courseT × List Int :=
  let course' := { course with selected := course.selected - 1 }
  (coursesStore cs course', [course.courseID])

/-- Go `messageChooseCourse` (src/unnamed/part_000 lines 36-211; the
src/wsm.go variant differs only in reporting errors through
`reportError` and in not maintaining `userCourseTypes`).  `state` is
the value read by `atomic.LoadUint32(&state)`, `mar` the split
message, `cs` the catalogue, `ucg`/`uct` the session bookkeeping,
`o` the database oracle, `propagateImmediate` the
`config.Perf.PropagateImmediate` flag. -/
def messageChooseCourse (state : Nat) (mar : List String) (cs : List courseT)
    (ucg : List String) (uct : List (String × Nat)) (o : chooseOracleT)
    (propagateImmediate : Bool) : chooseResT :=
  if state ≠ 2 then
    { courses := cs, groups := ucg, types := uct,
      sent := ["E :Course selections are not open"], db := [], propagate := [],
      err := none }
  else if o.ctxDone then
    { courses := cs, groups := ucg, types := uct, sent := [], db := [],
      propagate := [], err := some errContextCanceled }
  else if mar.length ≠ 2 then
    { courses := cs, groups := ucg, types := uct, sent := [], db := [],
      propagate := [], err := some errBadNumberOfArguments }
  else
    match parseInt64 (mar.getD 1 "") with
    | none =>
      { courses := cs, groups := ucg, types := uct, sent := [], db := [],
        propagate := [], err := some errNoSuchCourse }
    | some courseID =>
      match coursesLoad cs courseID with
      | none =>
        { courses := cs, groups := ucg, types := uct, sent := [], db := [],
          propagate := [], err := some errNoSuchCourse }
      | some course =>
        if groupsHas ucg course.group then
          { courses := cs, groups := ucg, types := uct,
            sent := ["R " ++ mar.getD 1 "" ++ " :Group conflict"], db := [],
            propagate := [], err := none }
        else if ¬ o.beginOk then
          { courses := cs, groups := ucg, types := uct, sent := [],
            db := [.beginTx], propagate := [], err := some errUnexpectedDBError }
        else
          match o.insertRes with
          | .uniqueViolation =>
            { courses := cs, groups := ucg, types := uct,
              sent := ["Y " ++ mar.getD 1 ""],
              db := [.beginTx, .insertChoice, .rollbackTx], propagate := [],
              err := if o.deferRollbackOk then none else some errUnexpectedDBError }
          | .otherErr =>
            { courses := cs, groups := ucg, types := uct, sent := [],
              db := [.beginTx, .insertChoice, .rollbackTx], propagate := [],
              err := some errUnexpectedDBError }
          | .insOk =>
            if course.selected < course.max then
              let course' := { course with selected := addUint32 course.selected 1 }
              let cs' := coursesStore cs course'
              if o.commitOk then
                { courses := cs',
                  groups := groupsInsert ucg course.group,
                  types := typesInc uct course.ctype,
                  sent := ["Y " ++ mar.getD 1 ""] ++
                    (if propagateImmediate then
                      [selectedUpdateFrame courseID course'.selected] else []),
                  db := [.beginTx, .insertChoice, .commitTx, .rollbackTx],
                  propagate := [courseID], err := none }
              else
                let dec := decrementSelectedAndPropagate cs' course'
                { courses := dec.1, groups := ucg, types := uct, sent := [],
                  db := [.beginTx, .insertChoice, .commitTx, .rollbackTx],
                  propagate := [courseID] ++ dec.2,
                  err := some errUnexpectedDBError }
            else
              if o.rollbackOk then
                { courses := cs, groups := ucg, types := uct,
                  sent := ["R " ++ mar.getD 1 "" ++ " :Full"],
                  db := [.beginTx, .insertChoice, .rollbackTx, .rollbackTx],
                  propagate := [], err := none }
              else
                { courses := cs, groups := ucg, types := uct, sent := [],
                  db := [.beginTx, .insertChoice, .rollbackTx, .rollbackTx],
                  propagate := [], err := some errUnexpectedDBError }

/-- Modelled from the spec: `makeReportError` is not under src/; per
section 7 a recoverable condition is delivered to the client as
`E :<reason>`, and the handler returns the reported error. -/
def reportErrorFrame (msg : String) : String := "E :" ++ msg

/-- Outcome of the `DELETE FROM choices` statement: an error, or the
number of rows affected. -/
inductive deleteResT where
  | delErr
  | rows (n : Nat)
deriving Repr, DecidableEq

/-- Oracle for `messageUnchooseCourse`: context cancellation and the
delete outcome. -/
structure unchooseOracleT where
  ctxDone : Bool
  deleteRes : deleteResT
deriving Repr, DecidableEq

/-- Result of an `N` handler run. -/
structure unchooseResT where
  courses : List courseT
  groups : List String
  sent : List String
  db : List dbEvT
  propagate : List Int
  err : Option String
deriving Repr, DecidableEq

/-- Go `messageUnchooseCourse` (src/wsm.go lines 273-377).  After a
successful delete of at least one row it runs
`decrementSelectedAndPropagate`, re-loads the course from the
catalogue, checks that the course group is present in
`userCourseGroups` (reporting `inconsistent user course groups`
otherwise) and removes it; in every non-error path it finally writes
`N <id>`. -/
def messageUnchooseCourse (state : Nat) (mar : List String) (cs : List courseT)
    (ucg : List String) (o : unchooseOracleT) : unchooseResT :=
  if state ≠ 2 then
    { courses := cs, groups := ucg,
      sent := ["E :Course selections are not open"], db := [], propagate := [],
      err := none }
  else if o.ctxDone then
    { courses := cs, groups := ucg, sent := [], db := [], propagate := [],
      err := some errContextCanceled }
  else if mar.length ≠ 2 then
    { courses := cs, groups := ucg,
      sent := [reportErrorFrame "Invalid number of arguments for N"],
      db := [], propagate := [],
      err := some "Invalid number of arguments for N" }
  else
    match parseInt64 (mar.getD 1 "") with
    | none =>
      { courses := cs, groups := ucg,
        sent := [reportErrorFrame "Course ID must be an integer"],
        db := [], propagate := [],
        err := some "Course ID must be an integer" }
    | some courseID =>
      match coursesLoad cs courseID with
      | none =>
        { courses := cs, groups := ucg,
          sent := [reportErrorFrame errNoSuchCourse], db := [], propagate := [],
          err := some errNoSuchCourse }
      | some course =>
        match o.deleteRes with
        | .delErr =>
          { courses := cs, groups := ucg,
            sent := [reportErrorFrame "Database error while deleting course choice"],
            db := [.deleteChoice], propagate := [],
            err := some "Database error while deleting course choice" }
        | .rows n =>
          if n ≠ 0 then
            let dec := decrementSelectedAndPropagate cs course
            match coursesLoad dec.1 courseID with
            | none =>
              { courses := dec.1, groups := ucg,
                sent := [reportErrorFrame errNoSuchCourse],
                db := [.deleteChoice], propagate := dec.2,
                err := some errNoSuchCourse }
            | some course2 =>
              if ¬ groupsHas ucg course2.group then
                { courses := dec.1, groups := ucg,
                  sent := [reportErrorFrame "inconsistent user course groups"],
                  db := [.deleteChoice], propagate := dec.2,
                  err := some "inconsistent user course groups" }
              else
                { courses := dec.1, groups := groupsErase ucg course2.group,
                  sent := ["N " ++ mar.getD 1 ""],
                  db := [.deleteChoice], propagate := dec.2, err := none }
          else
            { courses := cs, groups := ucg, sent := ["N " ++ mar.getD 1 ""],
              db := [.deleteChoice], propagate := [], err := none }

/-! ## Invariant predicates -/

/-- Capacity invariant 4 of the data model: every course has
`selected ≤ max`. -/
def capInvariant (cs : List courseT) : Bool :=
  cs.all (fun c => decide (c.selected ≤ c.max))

/-- Representation invariant of the Go `uint32` fields: `max` fits in
a machine word. -/
def wordSized (cs : List courseT) : Bool :=
  cs.all (fun c => decide (c.max < uint32Lim))

/-! ## Helper lemmas -/

theorem coursesLoad_mem {cs : List courseT} {i : Int} {c : courseT}
    (h : coursesLoad cs i = some c) : c ∈ cs :=
  List.mem_of_find?_eq_some h

theorem capInvariant_elem {cs : List courseT} {c : courseT}
    (h : capInvariant cs = true) (hc : c ∈ cs) : c.selected ≤ c.max := by
  simp only [capInvariant, List.all_eq_true, decide_eq_true_eq] at h
  exact h c hc

theorem wordSized_elem {cs : List courseT} {c : courseT}
    (h : wordSized cs = true) (hc : c ∈ cs) : c.max < uint32Lim := by
  simp only [wordSized, List.all_eq_true, decide_eq_true_eq] at h
  exact h c hc

theorem capInvariant_store {cs : List courseT} {c : courseT}
    (h : capInvariant cs = true) (hc : c.selected ≤ c.max) :
    capInvariant (coursesStore cs c) = true := by
  simp only [capInvariant, coursesStore, List.all_eq_true, List.mem_map,
    decide_eq_true_eq] at *
  rintro x ⟨y, hy, rfl⟩
  by_cases hid : y.courseID == c.courseID
  · simpa [hid] using hc
  · simpa [hid] using h y hy

theorem addUint32_one_le {s m : Nat} (hlt : s < m) (hm : m < uint32Lim) :
    addUint32 s 1 ≤ m := by
  unfold addUint32
  rw [Nat.mod_eq_of_lt (by omega)]
  omega

theorem usem_set_length {s : usemT} (hs : s._ch.length ≤ 1) :
    (usemT.set s)._ch.length = 1 := by
  unfold usemT.set
  by_cases h : s._ch.length < 1
  · rw [if_pos h]
    show (s._ch ++ [()]).length = 1
    simp only [List.length_append, List.length_singleton]
    omega
  · rw [if_neg h]
    omega

theorem usem_set_of_full {s : usemT} (hs : s._ch.length = 1) :
    usemT.set s = s := by
  unfold usemT.set
  rw [if_neg (by omega)]

/-! ## Claim theorems -/

/-- Claim C9: for every initialized coalescing signal, `set()` never
blocks (it is the non-blocking `select`/`default` send, a total
function in this model), and any number `n ≥ 1` of consecutive
`set()` calls with no intervening receive collapses to a single
pending wake: the channel buffer holds exactly one element, and the
`n` calls have the same effect as one. -/
theorem usem_sets_coalesce (s : usemT) (n : Nat)
    (hs : s._ch.length ≤ 1) (hn : 1 ≤ n) :
    usemT.setN n s = usemT.set s ∧ ((usemT.set s)._ch).length = 1 := by
  refine ⟨?_, usem_set_length hs⟩
  induction n generalizing s with
  | zero => omega
  | succ k ih =>
    show usemT.setN k s.set = usemT.set s
    rcases Nat.eq_zero_or_pos k with hk | hk
    · subst hk; rfl
    · rw [ih s.set (by rw [usem_set_length hs]) hk,
        usem_set_of_full (usem_set_length hs)]

/-- Claim C9 witness: three consecutive sets on a fresh signal leave
exactly one pending wake. -/
theorem usem_sets_coalesce_witness :
    usemT.setN 3 usemInit = usemT.set usemInit ∧
      ((usemT.set usemInit)._ch).length = 1 :=
  usem_sets_coalesce usemInit 3 (by decide) (by decide)

/-- Claim C10 counterexample: `splitMsg` is not total.  On the frame
`"A "` (final byte a space) the Go code evaluates `(*b)[i+1]` with
`i+1` equal to the length of the slice and panics with an
index-out-of-range, modelled by `none`. -/
theorem splitMsg_trailing_space_counterexample :
    splitMsg ('A' :: ' ' :: []) = none := rfl

theorem splitMsgAux_total (b : List Char) :
    b.getLast? ≠ some ' ' →
      ∀ mar elem, (splitMsgAux b mar elem).isSome = true := by
  induction b with
  | nil => intro _ mar elem; rfl
  | cons c rest ih =>
    intro h mar elem
    cases rest with
    | nil =>
      have hc : c ≠ ' ' := by simpa using h
      simp [splitMsgAux, hc]
    | cons c2 rest2 =>
      have h2 : (c2 :: rest2).getLast? ≠ some ' ' := by
        rwa [List.getLast?_cons_cons] at h
      by_cases hc : c = ' '
      · subst hc
        by_cases h2c : c2 = ':'
        · simp [splitMsgAux, h2c]
        · simp only [splitMsgAux, if_pos rfl, if_neg h2c]
          exact ih h2 _ _
      · simp only [splitMsgAux, if_neg hc]
        exact ih h2 _ _

/-- Claim C10 (amended): `splitMsg` returns a field list without
indexing out of bounds for every input byte slice whose final byte is
not a space (this includes the empty frame).  It is not total on all
inputs: the frame `"A "` reaches its final space with no
trailing-argument marker before it and indexes out of bounds (the
counterexample above); a trailing space is harmless only when an
earlier `" :"` diverts the scan into the trailing-argument branch. -/
theorem splitMsg_total_no_trailing_space (b : List Char)
    (h : b.getLast? ≠ some ' ') : (splitMsg b).isSome = true :=
  splitMsgAux_total b h [] []

/-- Claim C10 (amended) witness: a well-formed frame splits
successfully. -/
theorem splitMsg_total_no_trailing_space_witness :
    (splitMsg ('Y' :: ' ' :: '1' :: [])).isSome = true :=
  splitMsg_total_no_trailing_space ('Y' :: ' ' :: '1' :: []) (by decide)

/-- Claim C2: every `Y` or `N` frame handled while the global mode
state is not 2 (open) gets exactly the reply
`E :Course selections are not open`; the handler returns without any
database call, without changing any course `Selected` counter, and
without changing the user group/type bookkeeping. -/
theorem mode_gate_rejects (state : Nat) (mar mar2 : List String)
    (cs : List courseT) (ucg : List String) (uct : List (String × Nat))
    (o : chooseOracleT) (o2 : unchooseOracleT) (pim : Bool)
    (h : state ≠ 2) :
    messageChooseCourse state mar cs ucg uct o pim =
      { courses := cs, groups := ucg, types := uct,
        sent := ["E :Course selections are not open"], db := [],
        propagate := [], err := none } ∧
    messageUnchooseCourse state mar2 cs ucg o2 =
      { courses := cs, groups := ucg,
        sent := ["E :Course selections are not open"], db := [],
        propagate := [], err := none } := by
  constructor
  · unfold messageChooseCourse
    rw [if_pos h]
  · unfold messageUnchooseCourse
    rw [if_pos h]

/-- Claim C2 witness: a `Y` and an `N` frame in mode 1 (frozen). -/
theorem mode_gate_rejects_witness :
    messageChooseCourse 1 ["Y", "1"] [] [] [] ⟨false, true, .insOk, true, true, true⟩ false =
      { courses := [], groups := [], types := [],
        sent := ["E :Course selections are not open"], db := [],
        propagate := [], err := none } ∧
    messageUnchooseCourse 1 ["N", "1"] [] [] ⟨false, .rows 0⟩ =
      { courses := [], groups := [],
        sent := ["E :Course selections are not open"], db := [],
        propagate := [], err := none } :=
  mode_gate_rejects 1 ["Y", "1"] ["N", "1"] [] [] []
    ⟨false, true, .insOk, true, true, true⟩ ⟨false, .rows 0⟩ false (by decide)

/-- Claim C3: a `Y` frame naming a course the user already holds (the
insert fails with a unique violation) is answered `Y <id>` and the
handler returns without incrementing `course.Selected` (the catalogue
is unchanged) and without modifying `userCourseGroups` or
`userCourseTypes`; no subscriber is signalled. -/
theorem choose_duplicate_idempotent (s : String) (cs : List courseT)
    (ucg : List String) (uct : List (String × Nat)) (o : chooseOracleT)
    (pim : Bool) (cid : Int) (course : courseT)
    (hdone : o.ctxDone = false)
    (hparse : parseInt64 s = some cid)
    (hload : coursesLoad cs cid = some course)
    (hgrp : groupsHas ucg course.group = false)
    (hbegin : o.beginOk = true)
    (hins : o.insertRes = .uniqueViolation) :
    (messageChooseCourse 2 ["Y", s] cs ucg uct o pim).sent = ["Y " ++ s] ∧
    (messageChooseCourse 2 ["Y", s] cs ucg uct o pim).courses = cs ∧
    (messageChooseCourse 2 ["Y", s] cs ucg uct o pim).groups = ucg ∧
    (messageChooseCourse 2 ["Y", s] cs ucg uct o pim).types = uct ∧
    (messageChooseCourse 2 ["Y", s] cs ucg uct o pim).propagate = [] := by
  unfold messageChooseCourse
  simp [hdone, hparse, hload, hgrp, hbegin, hins]

/-- Claim C3 witness: a unique-violating insert for course 1 (the
session group set does not hold the group, so the insert is reached). -/
theorem choose_duplicate_idempotent_witness :
    (messageChooseCourse 2 ["Y", "1"]
        [⟨1, 1, 5, "g", "t"⟩] [] [("t", 1)]
        ⟨false, true, .uniqueViolation, true, true, true⟩ false).sent = ["Y 1"] ∧
    (messageChooseCourse 2 ["Y", "1"]
        [⟨1, 1, 5, "g", "t"⟩] [] [("t", 1)]
        ⟨false, true, .uniqueViolation, true, true, true⟩ false).courses =
      [⟨1, 1, 5, "g", "t"⟩] ∧
    (messageChooseCourse 2 ["Y", "1"]
        [⟨1, 1, 5, "g", "t"⟩] [] [("t", 1)]
        ⟨false, true, .uniqueViolation, true, true, true⟩ false).groups = [] ∧
    (messageChooseCourse 2 ["Y", "1"]
        [⟨1, 1, 5, "g", "t"⟩] [] [("t", 1)]
        ⟨false, true, .uniqueViolation, true, true, true⟩ false).types = [("t", 1)] ∧
    (messageChooseCourse 2 ["Y", "1"]
        [⟨1, 1, 5, "g", "t"⟩] [] [("t", 1)]
        ⟨false, true, .uniqueViolation, true, true, true⟩ false).propagate = [] :=
  choose_duplicate_idempotent "1" [⟨1, 1, 5, "g", "t"⟩] [] [("t", 1)]
    ⟨false, true, .uniqueViolation, true, true, true⟩ false 1 ⟨1, 1, 5, "g", "t"⟩
    (by decide) (by decide) (by decide) (by decide) (by decide) (by decide)

/-- Claim C4: an `N` frame naming a valid course for which the delete
removes zero rows is still answered `N <id>`, and the handler neither
decrements `course.Selected` (the catalogue is unchanged) nor signals
any subscriber nor modifies `userCourseGroups`. -/
theorem unchoose_zero_rows_idempotent (s : String) (cs : List courseT)
    (ucg : List String) (o : unchooseOracleT) (cid : Int) (course : courseT)
    (hdone : o.ctxDone = false)
    (hparse : parseInt64 s = some cid)
    (hload : coursesLoad cs cid = some course)
    (hdel : o.deleteRes = .rows 0) :
    (messageUnchooseCourse 2 ["N", s] cs ucg o).sent = ["N " ++ s] ∧
    (messageUnchooseCourse 2 ["N", s] cs ucg o).courses = cs ∧
    (messageUnchooseCourse 2 ["N", s] cs ucg o).groups = ucg ∧
    (messageUnchooseCourse 2 ["N", s] cs ucg o).propagate = [] ∧
    (messageUnchooseCourse 2 ["N", s] cs ucg o).err = none := by
  unfold messageUnchooseCourse
  simp [hdone, hparse, hload, hdel]

/-- Claim C4 witness: releasing course 1 while holding no choice row. -/
theorem unchoose_zero_rows_idempotent_witness :
    (messageUnchooseCourse 2 ["N", "1"] [⟨1, 3, 5, "g", "t"⟩] ["h"]
        ⟨false, .rows 0⟩).sent = ["N 1"] ∧
    (messageUnchooseCourse 2 ["N", "1"] [⟨1, 3, 5, "g", "t"⟩] ["h"]
        ⟨false, .rows 0⟩).courses = [⟨1, 3, 5, "g", "t"⟩] ∧
    (messageUnchooseCourse 2 ["N", "1"] [⟨1, 3, 5, "g", "t"⟩] ["h"]
        ⟨false, .rows 0⟩).groups = ["h"] ∧
    (messageUnchooseCourse 2 ["N", "1"] [⟨1, 3, 5, "g", "t"⟩] ["h"]
        ⟨false, .rows 0⟩).propagate = [] ∧
    (messageUnchooseCourse 2 ["N", "1"] [⟨1, 3, 5, "g", "t"⟩] ["h"]
        ⟨false, .rows 0⟩).err = none :=
  unchoose_zero_rows_idempotent "1" [⟨1, 3, 5, "g", "t"⟩] ["h"]
    ⟨false, .rows 0⟩ 1 ⟨1, 3, 5, "g", "t"⟩
    (by decide) (by decide) (by decide) (by decide)

/-- Claim C5 refutation: `setState(ctx, 0)` does not walk the entire
session registry.  The `cancelPool.Range` callback returns `false`,
which stops `sync.Map.Range` after the first entry, so with two
registered sessions only the first is cancelled. -/
theorem setState_close_cancels_only_first :
    (setState [("alice", false), ("bob", false)] 2 0 true).pool =
      [("alice", true), ("bob", false)] ∧
    (setState [("alice", false), ("bob", false)] 2 0 true).stateCell = 0 := by
  constructor <;> rfl

/-- Claim C6 refutation: with a session cookie that matches no row
(`pgx.ErrNoRows`) `handleWs` writes `U` but, lacking a `return`,
still enters `handleConn` with the zero-valued userid; likewise the
database-error branch writes `E :Database error` and still enters
`handleConn`.  Only the missing-cookie branch returns early. -/
theorem handleWs_unauthenticated_enters_handleConn :
    handleWs (.ok "deadbeef") .noRows =
      { sent := ["U"], enteredHandleConn := true, connUserid := "" } ∧
    handleWs (.ok "deadbeef") .dbErr =
      { sent := ["E :Database error"], enteredHandleConn := true,
        connUserid := "" } ∧
    handleWs .noCookie .noRows =
      { sent := ["U"], enteredHandleConn := false, connUserid := "" } := by
  refine ⟨rfl, rfl, rfl⟩

/-- Claim C7: `setState` persists the new mode through
`saveStateValue` before the in-memory atomic store; for every mode
transition (`newState ≤ 2`), if persistence fails the error is
returned and the in-memory state cell is unchanged, and if it
succeeds the cell is advanced to the new mode. -/
theorem setState_persistence_gate (pool : List (String × Bool))
    (cell new : Nat) (h : new ≤ 2) :
    (setState pool cell new false).stateCell = cell ∧
    (setState pool cell new false).err = some errUnexpectedDBError ∧
    (setState pool cell new true).stateCell = new := by
  interval_cases new <;> simp [setState]

/-- Claim C7 witness: transition to mode 1 with failing and with
succeeding persistence, from in-memory mode 2. -/
theorem setState_persistence_gate_witness :
    (setState [] 2 1 false).stateCell = 2 ∧
    (setState [] 2 1 false).err = some errUnexpectedDBError ∧
    (setState [] 2 1 true).stateCell = 1 :=
  setState_persistence_gate [] 2 1 (by decide)

/-- Claim C8 counterexample: in mode 2, a `Y` frame whose course id
does not resolve (id 999 against a catalogue holding only course 1)
is not answered `R 999 :No such course`: the handler sends nothing
and fails with `errNoSuchCourse` (the src/wsm.go variant reports it
as `E :no such course` through `reportError`). -/
theorem choose_no_such_course_counterexample :
    ((messageChooseCourse 2 ["Y", "999"] [⟨1, 0, 10, "g", "t"⟩] [] []
        ⟨false, true, .insOk, true, true, true⟩ false).sent.contains
      "R 999 :No such course") = false ∧
    (messageChooseCourse 2 ["Y", "999"] [⟨1, 0, 10, "g", "t"⟩] [] []
        ⟨false, true, .insOk, true, true, true⟩ false).sent = [] ∧
    (messageChooseCourse 2 ["Y", "999"] [⟨1, 0, 10, "g", "t"⟩] [] []
        ⟨false, true, .insOk, true, true, true⟩ false).err =
      some errNoSuchCourse := by
  refine ⟨rfl, rfl, rfl⟩

/-- Claim C8 (amended): in mode 2, a `Y` frame whose course id
argument does not resolve to a catalogue course makes the handler
fail with `errNoSuchCourse` without replying and without touching
catalogue or bookkeeping (in the src/wsm.go variant the same
condition is reported to the client as `E :no such course`); no
`R <id> :No such course` reply exists in the code. -/
theorem choose_no_such_course_errors (s : String) (cs : List courseT)
    (ucg : List String) (uct : List (String × Nat)) (o : chooseOracleT)
    (pim : Bool) (cid : Int)
    (hdone : o.ctxDone = false)
    (hparse : parseInt64 s = some cid)
    (hload : coursesLoad cs cid = none) :
    messageChooseCourse 2 ["Y", s] cs ucg uct o pim =
      { courses := cs, groups := ucg, types := uct, sent := [], db := [],
        propagate := [], err := some errNoSuchCourse } := by
  unfold messageChooseCourse
  simp [hdone, hparse, hload]

/-- Claim C8 (amended) witness: course id 999 against a catalogue
holding only course 1. -/
theorem choose_no_such_course_errors_witness :
    messageChooseCourse 2 ["Y", "999"] [⟨1, 0, 10, "g", "t"⟩] [] []
        ⟨false, true, .insOk, true, true, true⟩ false =
      { courses := [⟨1, 0, 10, "g", "t"⟩], groups := [], types := [],
        sent := [], db := [], propagate := [],
        err := some errNoSuchCourse } :=
  choose_no_such_course_errors "999" [⟨1, 0, 10, "g", "t"⟩] [] []
    ⟨false, true, .insOk, true, true, true⟩ false 999
    (by decide) (by decide) (by decide)

/-- Claim C1: `messageChooseCourse` preserves the invariant
`Selected ≤ Max` for every course: the guarded increment happens only
under the admission check `course.Selected < course.Max` (the
`SelectedLock` critical section of the Go code, which this sequential
model renders as the sole guarded mutation), and every branch of the
handler — admit, decline, duplicate, and all error branches including
the commit-failure compensation — leaves every catalogue course with
`selected ≤ max`, provided that held before. -/
theorem choose_capacity_invariant (state : Nat) (mar : List String)
    (cs : List courseT) (ucg : List String) (uct : List (String × Nat))
    (o : chooseOracleT) (pim : Bool)
    (hcap : capInvariant cs = true) (hws : wordSized cs = true) :
    capInvariant (messageChooseCourse state mar cs ucg uct o pim).courses
      = true := by
  unfold messageChooseCourse
  repeat' split
  all_goals try exact hcap
  · rename_i x2 cid hparse x1 course hload hgrp hbegin x0 hins hsel hcommit hpim
    have hm : course.max < uint32Lim := wordSized_elem hws (coursesLoad_mem hload)
    exact capInvariant_store hcap (addUint32_one_le hsel hm)
  · rename_i x2 cid hparse x1 course hload hgrp hbegin x0 hins hsel hcommit hpim
    have hm : course.max < uint32Lim := wordSized_elem hws (coursesLoad_mem hload)
    exact capInvariant_store hcap (addUint32_one_le hsel hm)
  · rename_i x2 cid hparse x1 course hload hgrp hbegin x0 hins hsel hcommit
    have hm : course.max < uint32Lim := wordSized_elem hws (coursesLoad_mem hload)
    have h1 : addUint32 course.selected 1 ≤ course.max := addUint32_one_le hsel hm
    exact capInvariant_store (capInvariant_store hcap h1)
      (le_trans (Nat.sub_le _ 1) h1)

/-- Claim C1 witness: an admitted `Y 1` on a course with one free
seat (`selected = 0`, `max = 1`) keeps `selected ≤ max`. -/
theorem choose_capacity_invariant_witness :
    capInvariant [⟨1, 0, 1, "g", "t"⟩] = true ∧
    wordSized [⟨1, 0, 1, "g", "t"⟩] = true ∧
    capInvariant (messageChooseCourse 2 ["Y", "1"] [⟨1, 0, 1, "g", "t"⟩] [] []
        ⟨false, true, .insOk, true, true, true⟩ true).courses = true :=
  ⟨by decide, by decide,
    choose_capacity_invariant 2 ["Y", "1"] [⟨1, 0, 1, "g", "t"⟩] [] []
      ⟨false, true, .insOk, true, true, true⟩ true (by decide) (by decide)⟩

end Cca
